import Mathlib

/-!
Verification of the node data-store and mutation-authorization layer of the
gatsby repository, a shallow embedding of
src/packages/gatsby/src/redux/actions.js.

Modelling decisions:
- JavaScript open records (node, page, plugin) become Lean structures whose
  possibly-absent properties are Option-valued; an absent property is none.
- JavaScript objects used as string-keyed maps (typeOwners, fieldOwners,
  fields, the external node store) become association lists with jsGet and
  jsSet, whose lookup returns the first matching key and whose set overwrites
  in place.
- JavaScript falsiness of a possibly-absent string (undefined or the empty
  string) is jsFalsyOpt.
- A thrown exception, the returned VALIDATION_ERROR object, and a returned
  event object are the three constructors of CNResult.
- In-place mutation of the caller-supplied node is made explicit: each action
  returns the node value as it stands after the mutations the source performs
  on it.
- The Joi schemas (../joi-schemas/joi), the store accessors getNode and
  hasNodeChanged (./index) and the chunk-name utility are code of the
  repository that is not among the sources here; they are modelled from the
  spec and marked as such on their definitions.
-/

/-- A plugin identity record; the source reads only plugin.name. -/
structure Plugin where
  name : String
deriving DecidableEq

/-- The internal sub-record of a node (actions.js lines 129-148).
Every property can be absent in JavaScript, hence Option. -/
structure Internal where
  type : Option String := none
  owner : Option String := none
  contentDigest : Option String := none
  mediaType : Option String := none
  content : Option String := none
  fieldOwners : Option (List (String × String)) := none
deriving DecidableEq

/-- A node record (actions.js lines 119-128).  fields and internal can be
absent; id, parent and children are modelled as always-present strings and
list, which is the shape every claim exercises. -/
structure NodeRec where
  id : String
  parent : String := ""
  children : List String := []
  fields : Option (List (String × String)) := none
  internal : Option Internal := none
deriving DecidableEq

/-- A page record (actions.js lines 33-48) with the derived properties the
source writes onto it. -/
structure PageRec where
  path : String
  component : String
  context : Option (List (String × String)) := none
  componentChunkName : Option String := none
  jsonName : Option String := none
  internalComponentName : Option String := none
deriving DecidableEq

/-- First-match lookup in a string-keyed association list, as JavaScript
property read obj[key] (undefined becomes none). -/
def jsGet {β : Type} : List (String × β) → String → Option β
  | [], _ => none
  | (k, v) :: rest, key => if k = key then some v else jsGet rest key

/-- Overwriting write obj[key] = v on a string-keyed association list. -/
def jsSet {β : Type} : List (String × β) → String → β → List (String × β)
  | [], key, v => [(key, v)]
  | (k, w) :: rest, key, v =>
      if k = key then (k, v) :: rest else (k, w) :: jsSet rest key v

/-- JavaScript falsiness of a possibly-absent string: undefined and the
empty string are falsy. -/
def jsFalsyOpt : Option String → Bool
  | none => true
  | some s => s = ""

/-- The internal record of a node, defaulting to the empty record; used
only where the source has already ensured node.internal exists. -/
def internalOf (n : NodeRec) : Internal :=
  n.internal.getD {}

/-- The property key the source uses for typeOwners[node.internal.type];
JavaScript coerces an undefined key to the string "undefined". -/
def nodeTypeKey (n : NodeRec) : String :=
  (internalOf n).type.getD "undefined"

/-- An alphanumeric character, the word material of the lodash word
splitter for ASCII input. -/
def isWordChar (c : Char) : Bool :=
  c.isAlpha || c.isDigit

/-- Splits a character list into lodash-style words: maximal alphanumeric
runs, further split where a lowercase letter or digit is followed by an
uppercase letter.  Models lodash _.words for the ASCII paths the source
feeds it. -/
def chunkWords : List Char → List Char → List (List Char)
  | acc, [] => if acc.isEmpty then [] else [acc.reverse]
  | acc, c :: rest =>
      if isWordChar c then
        match acc with
        | [] => chunkWords [c] rest
        | p :: _ =>
            if c.isUpper && (p.isLower || p.isDigit) then
              acc.reverse :: chunkWords [c] rest
            else
              chunkWords (c :: acc) rest
      else
        (if acc.isEmpty then [] else [acc.reverse]) ++ chunkWords [] rest

/-- The words of a string, as lodash _.words on ASCII input. -/
def wordsOf (s : String) : List String :=
  (chunkWords [] s.data).map List.asString

/-- Lowercases a string character by character (String.toLower spelled out
on the character list). -/
def lowerString (s : String) : String :=
  List.asString (s.data.map Char.toLower)

/-- lodash _.kebabCase: words lowercased and joined with dashes. -/
def kebabCase (s : String) : String :=
  String.intercalate "-" ((wordsOf s).map lowerString)

/-- lodash capitalize of one word: first character uppercased, the rest
lowercased. -/
def capWord (w : String) : String :=
  match w.data with
  | [] => ""
  | c :: rest => List.asString (c.toUpper :: rest.map Char.toLower)

/-- lodash _.camelCase: first word lowercased, later words capitalized,
concatenated. -/
def camelCase (s : String) : String :=
  match wordsOf s with
  | [] => ""
  | w :: ws => String.join (lowerString w :: ws.map capWord)

/-- lodash _.upperFirst: first character uppercased, the rest kept. -/
def upperFirst (s : String) : String :=
  match s.data with
  | [] => ""
  | c :: rest => List.asString (c.toUpper :: rest)

/-- pascalCase = _.flow(_.camelCase, _.upperFirst) (actions.js line 29). -/
def pascalCase (s : String) : String :=
  upperFirst (camelCase s)

/-- The JavaScript test page.path[0] !== "/" of actions.js line 77,
negated: true when the first character of the string is a forward slash
(an empty string has no first character). -/
def firstCharIsSlash (s : String) : Bool :=
  match s.data with
  | [] => false
  | c :: _ => c = '/'

/-- lodash _.uniq: removes duplicates keeping the first occurrence of each
element (actions.js line 325). -/
def jsUniq : List String → List String
  | [] => []
  | x :: xs => x :: jsUniq (xs.filter (fun y => y != x))
termination_by l => l.length
decreasing_by
  simpa using Nat.lt_succ_of_le (List.length_filter_le _ _)

/-- Modelled from the spec: the Joi nodeSchema structural validator
(../joi-schemas/joi is not among the sources).  Per the data model of the
spec a node record must carry an id and an internal record with a type tag
and a content digest; the reserved fields property is policed by a separate
hard error in the source, not by the validator. -/
def nodeValid (n : NodeRec) : Bool :=
  n.id ≠ "" &&
    match n.internal with
    | none => false
    | some i =>
        (match i.type with
         | none => false
         | some t => t ≠ "") && i.contentDigest.isSome

/-- Modelled from the spec: the Joi pageSchema structural validator.  Per
the data model of the spec a page must carry a path and a component
reference.  The source validates before normalizing the leading slash, so
the validator does not require the path to be absolute. -/
def pageValid (p : PageRec) : Bool :=
  p.path ≠ "" && p.component ≠ ""

/-- Modelled from the spec: layoutComponentChunkName from
../utils/js-chunk-names, an external chunk-naming collaborator
(chunkNameFor in the spec); an opaque deterministic derivation. -/
def layoutComponentChunkName (componentPath : String) : String :=
  "layout-component---" ++ kebabCase componentPath

/-- Modelled from the spec: hasNodeChanged(id, newDigest) from ./index
"compares stored digest to candidate digest". -/
def hasNodeChanged (nodes : List (String × NodeRec)) (id : String)
    (digest : Option String) : Bool :=
  match jsGet nodes id with
  | none => true
  | some n => (internalOf n).contentDigest ≠ digest

/-- The canonical mutation events the actions return (the object literals
with a type tag in actions.js). -/
inductive Event where
  | deletePage (payload : PageRec)
  | createPage (plugin : Plugin) (payload : PageRec)
  | deleteNode (plugin : Plugin) (payload : String)
  | deleteNodes (plugin : Plugin) (payload : List String)
  | touchNode (plugin : Plugin) (payload : String)
  | createNode (plugin : Plugin) (payload : NodeRec)
  | addFieldToNode (plugin : Plugin) (payload : NodeRec)
  | addChildNodeToParentNode (plugin : Plugin) (payload : NodeRec)
  | updateSourcePluginStatus (plugin : Plugin) (payload : String)
deriving DecidableEq

/-- The errors createNode throws (the two stripIndent messages of
actions.js lines 196-212, 221-238 and 247-254), carrying the data the
messages interpolate. -/
inductive NodeError where
  | reservedFieldViolation
  | ownershipConflict (type owner pluginName : String)
  | ownershipViolation (id owner pluginName : String)
deriving DecidableEq

/-- Outcome of createNode: the returned VALIDATION_ERROR object, a thrown
error, or a returned event. -/
inductive CNResult where
  | validationError
  | thrown (e : NodeError)
  | ev (e : Event)
deriving DecidableEq

/-- Full outcome of a createNode call: its result, the caller-supplied node
as mutated in place, and the typeOwners registry after the call. -/
structure CNOut where
  result : CNResult
  node : NodeRec
  typeOwners : List (String × String)
deriving DecidableEq

/-- Outcome of createNodeField: the thrown field-ownership error, the
TypeError JavaScript raises reading fieldOwners of an absent internal, or
the returned event. -/
inductive CNFResult where
  | thrownFieldOwned (id pluginName fieldName : String)
  | typeErrorNoInternal
  | ev (e : Event)
deriving DecidableEq

namespace actions

/-- actions.deletePage (actions.js lines 22-27). -/
def deletePage (page : PageRec) : Event :=
  .deletePage page

/-- actions.createPage (actions.js lines 50-86): derives
componentChunkName, jsonName and internalComponentName, defaults context,
validates (returning undefined, i.e. none, on failure), normalizes the
leading slash, and returns the CREATE_PAGE event.  The second component is
the page object as mutated in place. -/
def createPage (page : PageRec) (plugin : Plugin) : Option Event × PageRec :=
  let page := { page with
    componentChunkName := some (layoutComponentChunkName page.component) }
  let jsonName := kebabCase page.path ++ ".json"
  let icn := "Component" ++ pascalCase page.path
  let pair := if jsonName = ".json" then ("index.json", "ComponentIndex")
              else (jsonName, icn)
  let page := { page with
    jsonName := some pair.1, internalComponentName := some pair.2 }
  let page := if page.context.isNone then { page with context := some [] }
              else page
  if pageValid page = false then
    (none, page)
  else
    let page := if firstCharIsSlash page.path then page
                else { page with path := "/" ++ page.path }
    (some (.createPage plugin page), page)

/-- actions.deleteNode (actions.js lines 94-100): returns the DELETE_NODE
event unconditionally. -/
def deleteNode (nodeId : String) (plugin : Plugin) : Event :=
  .deleteNode plugin nodeId

/-- actions.deleteNodes (actions.js lines 108-114): returns the
DELETE_NODES event unconditionally. -/
def deleteNodes (nodes : List String) (plugin : Plugin) : Event :=
  .deleteNodes plugin nodes

/-- The in-place mutation createNode performs on the caller's node before
validating (actions.js lines 176-184): ensure internal exists, then record
the plugin name as internal.owner (the plugin is an object, hence truthy). -/
def mutateNode (node : NodeRec) (plugin : Plugin) : NodeRec :=
  { node with internal := some { node.internal.getD {} with owner := some plugin.name } }

/-- The body of createNode after the in-place owner mutation, from the Joi
validation on (actions.js lines 186-270).  typeCheckDone is the
continuation after the typeOwners gate (lines 242-270). -/
def typeCheckDone (tOwners : List (String × String)) (nodes : List (String × NodeRec))
    (node : NodeRec) (plugin : Plugin) : CNOut :=
  match jsGet nodes node.id with
  | some oldNode =>
      if (internalOf oldNode).owner ≠ some plugin.name then
        ⟨.thrown (.ownershipViolation node.id
            (((internalOf oldNode).owner).getD "") plugin.name), node, tOwners⟩
      else if hasNodeChanged nodes node.id (internalOf node).contentDigest = false then
        ⟨.ev (.touchNode plugin node.id), node, tOwners⟩
      else
        ⟨.ev (.createNode plugin node), node, tOwners⟩
  | none => ⟨.ev (.createNode plugin node), node, tOwners⟩

/-- actions.createNode (actions.js lines 167-271) minus the in-place owner
mutation: Joi validation (line 186), the reserved fields hard error (line
195), the first-come-first-served typeOwners gate (lines 217-240), then
typeCheckDone. -/
def createNodeCore (tOwners : List (String × String)) (nodes : List (String × NodeRec))
    (node : NodeRec) (plugin : Plugin) : CNOut :=
  if nodeValid node = false then
    ⟨.validationError, node, tOwners⟩
  else if node.fields.isSome then
    ⟨.thrown .reservedFieldViolation, node, tOwners⟩
  else
    if jsFalsyOpt (jsGet tOwners (nodeTypeKey node)) then
      typeCheckDone (jsSet tOwners (nodeTypeKey node) plugin.name) nodes node plugin
    else if jsGet tOwners (nodeTypeKey node) ≠ some plugin.name then
      ⟨.thrown (.ownershipConflict (nodeTypeKey node)
          ((jsGet tOwners (nodeTypeKey node)).getD "") plugin.name),
        node, tOwners⟩
    else
      typeCheckDone tOwners nodes node plugin

/-- actions.createNode (actions.js lines 167-271).  The guard that the
node is an object (line 168) is discharged by typing.  to is the module
state typeOwners (line 116); nodes is the external store read through
getNode (modelled from the spec). -/
def createNode (tOwners : List (String × String)) (nodes : List (String × NodeRec))
    (node : NodeRec) (plugin : Plugin) : CNOut :=
  createNodeCore tOwners nodes (mutateNode node plugin) plugin

/-- actions.createNodeField (actions.js lines 287-320): ensure
internal.fieldOwners and fields exist, reject when the field is owned by a
different plugin, otherwise write the field value, record the owner and
return the ADD_FIELD_TO_NODE event.  Reading node.internal.fieldOwners of
a node with no internal record is a JavaScript TypeError.  The second
component is the node as mutated in place. -/
def createNodeField (node : NodeRec) (fieldName fieldValue : String)
    (plugin : Plugin) : CNFResult × NodeRec :=
  match node.internal with
  | none => (.typeErrorNoInternal, node)
  | some i0 =>
      let i := if i0.fieldOwners.isNone then { i0 with fieldOwners := some [] } else i0
      let node := { node with internal := some i }
      let node := if node.fields.isNone then { node with fields := some [] } else node
      let fieldOwner := jsGet (i.fieldOwners.getD []) fieldName
      if jsFalsyOpt fieldOwner = false && fieldOwner ≠ some plugin.name then
        (.thrownFieldOwned node.id plugin.name fieldName, node)
      else
        let node := { node with
          fields := some (jsSet (node.fields.getD []) fieldName fieldValue),
          internal := some { i with
            fieldOwners := some (jsSet (i.fieldOwners.getD []) fieldName plugin.name) } }
        (.ev (.addFieldToNode plugin node), node)

/-- actions.addNodeToParent (actions.js lines 322-332): push the child id
onto parent.children, deduplicate with _.uniq, return the event.  The
second component is the parent as mutated in place. -/
def addNodeToParent (parent child : NodeRec) (plugin : Plugin) :
    Event × NodeRec :=
  let parent := { parent with children := jsUniq (parent.children ++ [child.id]) }
  (.addChildNodeToParentNode plugin parent, parent)

/-- actions.updateSourcePluginStatus (actions.js lines 334-340). -/
def updateSourcePluginStatus (status : String) (plugin : Plugin) : Event :=
  .updateSourcePluginStatus plugin status

end actions

/-- Modelled from the spec: the dispatcher applies a CREATE_NODE event by
storing the payload under its id; TOUCH_NODE and the non-node events leave
the node store unchanged; DELETE_NODE removes the id. -/
def applyEvent (nodes : List (String × NodeRec)) : Event → List (String × NodeRec)
  | .createNode _ payload => jsSet nodes payload.id payload
  | .deleteNode _ id => nodes.filter (fun kv => kv.1 != id)
  | _ => nodes

/-- The node store after a createNode outcome is handed to the dispatcher:
only a returned event reaches dispatch; a throw or the VALIDATION_ERROR
return leaves the store untouched. -/
def dispatchCN (nodes : List (String × NodeRec)) : CNResult → List (String × NodeRec)
  | .ev e => applyEvent nodes e
  | _ => nodes

/-! ## Helper lemmas -/

theorem jsGet_jsSet {β : Type} (m : List (String × β)) (k : String) (v : β)
    (k2 : String) :
    jsGet (jsSet m k v) k2 = if k = k2 then some v else jsGet m k2 := by
  induction m with
  | nil => simp [jsSet, jsGet]
  | cons kv rest ih =>
      obtain ⟨k1, w⟩ := kv
      by_cases h1 : k1 = k
      · subst h1
        by_cases h2 : k1 = k2 <;> simp [jsSet, jsGet, h2]
      · by_cases h2 : k1 = k2
        · subst h2
          simp [jsSet, jsGet, h1, Ne.symm h1]
        · simp [jsSet, jsGet, h1, h2, ih]

theorem mem_jsUniq {a : String} : ∀ {l : List String}, a ∈ jsUniq l ↔ a ∈ l := by
  intro l
  induction l using jsUniq.induct with
  | case1 => simp [jsUniq]
  | case2 x xs ih =>
      by_cases hax : a = x
      · subst hax
        simp [jsUniq]
      · simp only [jsUniq, List.mem_cons, ih, List.mem_filter, bne_iff_ne]
        simp [hax]

theorem jsUniq_nodup : ∀ l : List String, (jsUniq l).Nodup := by
  intro l
  induction l using jsUniq.induct with
  | case1 => simp [jsUniq]
  | case2 x xs ih =>
      rw [jsUniq]
      refine List.nodup_cons.mpr ⟨?_, ih⟩
      intro hmem
      have h2 := (List.mem_filter.mp (mem_jsUniq.mp hmem)).2
      simp at h2

theorem typeCheckDone_node (t : List (String × String)) (ns : List (String × NodeRec))
    (n : NodeRec) (p : Plugin) : (actions.typeCheckDone t ns n p).node = n := by
  unfold actions.typeCheckDone
  split
  · split
    · rfl
    · split <;> rfl
  · rfl

theorem typeCheckDone_typeOwners (t : List (String × String))
    (ns : List (String × NodeRec)) (n : NodeRec) (p : Plugin) :
    (actions.typeCheckDone t ns n p).typeOwners = t := by
  unfold actions.typeCheckDone
  split
  · split
    · rfl
    · split <;> rfl
  · rfl

theorem createNodeCore_node (t : List (String × String)) (ns : List (String × NodeRec))
    (n : NodeRec) (p : Plugin) : (actions.createNodeCore t ns n p).node = n := by
  unfold actions.createNodeCore
  split
  · rfl
  · split
    · rfl
    · split
      · exact typeCheckDone_node _ _ _ _
      · split
        · rfl
        · exact typeCheckDone_node _ _ _ _

theorem createNodeCore_typeOwners (t : List (String × String))
    (ns : List (String × NodeRec)) (n : NodeRec) (p : Plugin) :
    (actions.createNodeCore t ns n p).typeOwners = t ∨
    ((actions.createNodeCore t ns n p).typeOwners = jsSet t (nodeTypeKey n) p.name ∧
      jsFalsyOpt (jsGet t (nodeTypeKey n)) = true) := by
  unfold actions.createNodeCore
  split
  · left; rfl
  · split
    · left; rfl
    · split
      · right
        exact ⟨typeCheckDone_typeOwners _ _ _ _, by assumption⟩
      · split
        · left; rfl
        · left
          exact typeCheckDone_typeOwners _ _ _ _

/-! ## Claims -/

/-- C8: createPage derives its keys as a pure function of path: for path
"/" it produces jsonName "index.json" and internalComponentName
"ComponentIndex"; for path "/blog/my-post" it produces jsonName
"blog-my-post.json" and internalComponentName "ComponentBlogMyPost"; and a
path without a leading slash, such as "about", is stored normalized to
"/about". -/
theorem claim_C8 :
    ((actions.createPage { path := "/", component := "/c.js" } ⟨"p"⟩).2.jsonName
        = some "index.json") ∧
    ((actions.createPage { path := "/", component := "/c.js" } ⟨"p"⟩).2.internalComponentName
        = some "ComponentIndex") ∧
    ((actions.createPage { path := "/blog/my-post", component := "/c.js" } ⟨"p"⟩).2.jsonName
        = some "blog-my-post.json") ∧
    ((actions.createPage { path := "/blog/my-post", component := "/c.js" } ⟨"p"⟩).2.internalComponentName
        = some "ComponentBlogMyPost") ∧
    ((actions.createPage { path := "about", component := "/c.js" } ⟨"p"⟩).2.path
        = "/about") ∧
    ((actions.createPage { path := "about", component := "/c.js" } ⟨"p"⟩).1
        = some (Event.createPage ⟨"p"⟩
            (actions.createPage { path := "about", component := "/c.js" } ⟨"p"⟩).2)) := by
  decide

/-- C9: for every parent node and child node, calling addNodeToParent twice
with the same child leaves parent.children with no duplicate entries: the
child id appears exactly once and the children list contains no duplicate
ids after the call. -/
theorem claim_C9 (parent child : NodeRec) (p : Plugin) :
    ((actions.addNodeToParent (actions.addNodeToParent parent child p).2 child p).2.children.count
        child.id = 1) ∧
    (actions.addNodeToParent (actions.addNodeToParent parent child p).2 child p).2.children.Nodup := by
  have hnd : ((actions.addNodeToParent (actions.addNodeToParent parent child p).2 child p).2.children).Nodup := by
    simp only [actions.addNodeToParent]
    exact jsUniq_nodup _
  refine ⟨?_, hnd⟩
  have hmem : child.id ∈ (actions.addNodeToParent (actions.addNodeToParent parent child p).2 child p).2.children := by
    simp only [actions.addNodeToParent]
    exact mem_jsUniq.mpr (List.mem_append_right _ (List.mem_singleton.mpr rfl))
  exact List.count_eq_one_of_mem hnd hmem

/-- C10: for every call to createNode, the caller-supplied node object is
mutated in place before validation runs: internal is created if absent and
internal.owner is set to the plugin name, and the node returned by the
call carries these mutations in every outcome, including validation
failure and the thrown ownership errors. -/
theorem claim_C10 (t : List (String × String)) (ns : List (String × NodeRec))
    (n : NodeRec) (p : Plugin) :
    ((actions.createNode t ns n p).node.internal.isSome) ∧
    ((internalOf (actions.createNode t ns n p).node).owner = some p.name) := by
  unfold actions.createNode
  rw [createNodeCore_node]
  exact ⟨rfl, rfl⟩

theorem typeCheckDone_violation (t : List (String × String))
    (ns : List (String × NodeRec)) (n : NodeRec) (p : Plugin) (old : NodeRec)
    (hold : jsGet ns n.id = some old)
    (hown : (internalOf old).owner ≠ some p.name) :
    actions.typeCheckDone t ns n p =
      ⟨.thrown (.ownershipViolation n.id (((internalOf old).owner).getD "") p.name),
        n, t⟩ := by
  unfold actions.typeCheckDone
  rw [hold]
  simp [hown]

theorem typeCheckDone_touch (t : List (String × String))
    (ns : List (String × NodeRec)) (n : NodeRec) (p : Plugin) (old : NodeRec)
    (hold : jsGet ns n.id = some old)
    (hown : (internalOf old).owner = some p.name)
    (hdig : (internalOf old).contentDigest = (internalOf n).contentDigest) :
    actions.typeCheckDone t ns n p = ⟨.ev (.touchNode p n.id), n, t⟩ := by
  unfold actions.typeCheckDone
  rw [hold]
  simp [hown, hasNodeChanged, hold, hdig]

theorem typeCheckDone_create_changed (t : List (String × String))
    (ns : List (String × NodeRec)) (n : NodeRec) (p : Plugin) (old : NodeRec)
    (hold : jsGet ns n.id = some old)
    (hown : (internalOf old).owner = some p.name)
    (hdig : (internalOf old).contentDigest ≠ (internalOf n).contentDigest) :
    actions.typeCheckDone t ns n p = ⟨.ev (.createNode p n), n, t⟩ := by
  unfold actions.typeCheckDone
  rw [hold]
  simp [hown, hasNodeChanged, hold, hdig]

theorem createNodeCore_gate_free (t : List (String × String))
    (ns : List (String × NodeRec)) (n : NodeRec) (p : Plugin)
    (hv : nodeValid n = true) (hf : n.fields = none)
    (hfree : jsFalsyOpt (jsGet t (nodeTypeKey n)) = true) :
    actions.createNodeCore t ns n p =
      actions.typeCheckDone (jsSet t (nodeTypeKey n) p.name) ns n p := by
  unfold actions.createNodeCore
  simp [hv, hf, hfree]

theorem createNodeCore_gate_owned (t : List (String × String))
    (ns : List (String × NodeRec)) (n : NodeRec) (p : Plugin)
    (hv : nodeValid n = true) (hf : n.fields = none)
    (howned : jsGet t (nodeTypeKey n) = some p.name) (hne : p.name ≠ "") :
    actions.createNodeCore t ns n p = actions.typeCheckDone t ns n p := by
  unfold actions.createNodeCore
  simp [hv, hf, howned, jsFalsyOpt, hne]

theorem createNodeCore_gate_conflict (t : List (String × String))
    (ns : List (String × NodeRec)) (n : NodeRec) (p : Plugin) (o : String)
    (hv : nodeValid n = true) (hf : n.fields = none)
    (ho : jsGet t (nodeTypeKey n) = some o) (hoe : o ≠ "") (hop : o ≠ p.name) :
    actions.createNodeCore t ns n p =
      ⟨.thrown (.ownershipConflict (nodeTypeKey n) o p.name), n, t⟩ := by
  unfold actions.createNodeCore
  simp [hv, hf, ho, jsFalsyOpt, hoe, hop]

theorem createNode_unfold (t : List (String × String))
    (ns : List (String × NodeRec)) (n : NodeRec) (p : Plugin) (i : Internal)
    (hn : n.internal = some i) :
    actions.createNode t ns n p =
      actions.createNodeCore t ns
        { n with internal := some { i with owner := some p.name } } p := by
  unfold actions.createNode actions.mutateNode
  rw [hn]
  rfl

theorem nodeValid_withOwner (n : NodeRec) (i : Internal) (o : Option String)
    (hn : n.internal = some i) :
    nodeValid { n with internal := some { i with owner := o } } = nodeValid n := by
  simp [nodeValid, hn]

theorem nodeTypeKey_withOwner (n : NodeRec) (i : Internal) (o : Option String) :
    nodeTypeKey { n with internal := some { i with owner := o } } =
      i.type.getD "undefined" := rfl

/-- C2: the first plugin to call createNode with a node of internal.type T
(T unclaimed, valid node, no preset fields) becomes the recorded owner of
T; a recorded owner with a nonempty name never changes on any later
createNode call; and a later createNode of type T by a plugin with a
different name fails with the thrown ownership-conflict error. -/
theorem claim_C2 :
    (∀ t ns n p i T, n.internal = some i → i.type = some T →
        jsGet t T = none → nodeValid n = true → n.fields = none →
        jsGet (actions.createNode t ns n p).typeOwners T = some p.name) ∧
    (∀ t ns n p T o, jsGet t T = some o → o ≠ "" →
        jsGet (actions.createNode t ns n p).typeOwners T = some o) ∧
    (∀ t ns n p i T o, n.internal = some i → i.type = some T →
        jsGet t T = some o → o ≠ "" → p.name ≠ o →
        nodeValid n = true → n.fields = none →
        (actions.createNode t ns n p).result =
          .thrown (.ownershipConflict T o p.name)) := by
  refine ⟨?_, ?_, ?_⟩
  · intro t ns n p i T hn ht hfree hv hf
    rw [createNode_unfold t ns n p i hn]
    set m : NodeRec := { n with internal := some { i with owner := some p.name } } with hm
    have hkey : nodeTypeKey m = T := by rw [hm, nodeTypeKey_withOwner, ht]; rfl
    have hvm : nodeValid m = true := by rw [hm, nodeValid_withOwner n i _ hn]; exact hv
    rw [createNodeCore_gate_free t ns m p hvm hf (by rw [hkey, hfree]; rfl)]
    rw [typeCheckDone_typeOwners, hkey, jsGet_jsSet]
    simp
  · intro t ns n p T o ho hoe
    unfold actions.createNode
    rcases createNodeCore_typeOwners t ns (actions.mutateNode n p) p with h | ⟨h, hfal⟩
    · rw [h, ho]
    · by_cases hkT : nodeTypeKey (actions.mutateNode n p) = T
      · rw [hkT, ho] at hfal
        simp [jsFalsyOpt] at hfal
        exact absurd hfal hoe
      · rw [h, jsGet_jsSet]
        simp [hkT, ho]
  · intro t ns n p i T o hn ht ho hoe hop hv hf
    rw [createNode_unfold t ns n p i hn]
    set m : NodeRec := { n with internal := some { i with owner := some p.name } } with hm
    have hkey : nodeTypeKey m = T := by rw [hm, nodeTypeKey_withOwner, ht]; rfl
    have hvm : nodeValid m = true := by rw [hm, nodeValid_withOwner n i _ hn]; exact hv
    rw [createNodeCore_gate_conflict t ns m p o hvm hf (by rw [hkey]; exact ho) hoe
        (fun hc => hop hc.symm)]
    rw [hkey]

/-- Witness for C2: the three conjuncts applied at concrete registries,
nodes and plugins. -/
theorem claim_C2_witness :
    (jsGet (actions.createNode [] []
        { id := "n1", internal := some { type := some "T", contentDigest := some "d" } }
        ⟨"p"⟩).typeOwners "T" = some "p") ∧
    (jsGet (actions.createNode [("T", "p")] []
        { id := "n2", internal := some { type := some "U", contentDigest := some "d" } }
        ⟨"q"⟩).typeOwners "T" = some "p") ∧
    ((actions.createNode [("T", "p")] []
        { id := "n2", internal := some { type := some "T", contentDigest := some "d" } }
        ⟨"q"⟩).result = .thrown (.ownershipConflict "T" "p" "q")) :=
  ⟨claim_C2.1 [] [] _ ⟨"p"⟩ _ "T" rfl rfl rfl (by decide) rfl,
   claim_C2.2.1 [("T", "p")] [] _ ⟨"q"⟩ "T" "p" (by decide) (by decide),
   claim_C2.2.2 [("T", "p")] [] _ ⟨"q"⟩ _ "T" "p" rfl rfl (by decide) (by decide)
     (by decide) (by decide) rfl⟩

/-- A concrete stored node for the C1 scenario: id "n1", type T, owner
plugin p, digest d. -/
def storedNodeP : NodeRec :=
  { id := "n1",
    internal := some { type := some "T", owner := some "p", contentDigest := some "d" } }

/-- Counterexample to C1 as stated: the stored node "n1" is owned by
plugin p and its type T is owned by p.  Plugin q re-creating "n1" with a
different digest under the same type T fails with the thrown type
ownership-conflict error, not the node ownership-violation error; and
under a fresh type T2 the call does fail with the ownership violation,
but the typeOwners registry does not remain unchanged: it records q as
the owner of T2. -/
theorem claim_C1_counterexample :
    ((actions.createNode [("T", "p")]
        [("n1", storedNodeP)]
        { id := "n1", internal := some { type := some "T", contentDigest := some "e" } }
        ⟨"q"⟩).result = .thrown (.ownershipConflict "T" "p" "q")) ∧
    ((actions.createNode [("T", "p")]
        [("n1", storedNodeP)]
        { id := "n1", internal := some { type := some "T2", contentDigest := some "e" } }
        ⟨"q"⟩).result = .thrown (.ownershipViolation "n1" "p" "q")) ∧
    ((actions.createNode [("T", "p")]
        [("n1", storedNodeP)]
        { id := "n1", internal := some { type := some "T2", contentDigest := some "e" } }
        ⟨"q"⟩).typeOwners ≠ [("T", "p")]) := by
  decide

/-- C1 (amended): for a stored node owned by plugin P, createNode of a
valid node with the same id, no preset fields and a different digest by a
plugin q with a different name always fails and never reaches the
dispatcher, so the stored node is unchanged; it fails with
OwnershipViolation when the node's type is unclaimed (in which case the
typeOwners registry additionally records q as the type's owner) or when q
already owns the type (registry unchanged), and with OwnershipConflict
when the type is owned by a different plugin (registry unchanged). -/
theorem claim_C1 (t : List (String × String)) (ns : List (String × NodeRec))
    (n : NodeRec) (q : Plugin) (i : Internal) (T P : String) (old : NodeRec)
    (hn : n.internal = some i) (ht : i.type = some T)
    (hv : nodeValid n = true) (hf : n.fields = none)
    (hold : jsGet ns n.id = some old)
    (hpown : (internalOf old).owner = some P)
    (hqp : q.name ≠ P)
    (hdig : (internalOf old).contentDigest ≠ i.contentDigest) :
    (dispatchCN ns (actions.createNode t ns n q).result = ns) ∧
    (jsFalsyOpt (jsGet t T) = true →
        (actions.createNode t ns n q).result =
          .thrown (.ownershipViolation n.id P q.name) ∧
        (actions.createNode t ns n q).typeOwners = jsSet t T q.name) ∧
    (jsGet t T = some q.name → q.name ≠ "" →
        (actions.createNode t ns n q).result =
          .thrown (.ownershipViolation n.id P q.name) ∧
        (actions.createNode t ns n q).typeOwners = t) ∧
    (∀ o, jsGet t T = some o → o ≠ "" → o ≠ q.name →
        (actions.createNode t ns n q).result =
          .thrown (.ownershipConflict T o q.name) ∧
        (actions.createNode t ns n q).typeOwners = t) := by
  rw [createNode_unfold t ns n q i hn]
  set m : NodeRec := { n with internal := some { i with owner := some q.name } } with hm
  have hkey : nodeTypeKey m = T := by rw [hm, nodeTypeKey_withOwner, ht]; rfl
  have hvm : nodeValid m = true := by rw [hm, nodeValid_withOwner n i _ hn]; exact hv
  have hown : (internalOf old).owner ≠ some q.name := by
    rw [hpown]
    intro hc
    exact hqp (Option.some.inj hc).symm
  have hviol : ∀ t2, actions.typeCheckDone t2 ns m q =
      ⟨.thrown (.ownershipViolation n.id P q.name), m, t2⟩ := by
    intro t2
    have h := typeCheckDone_violation t2 ns m q old hold hown
    rwa [hpown, Option.getD_some] at h
  refine ⟨?_, ?_, ?_, ?_⟩
  · by_cases hfal : jsFalsyOpt (jsGet t (nodeTypeKey m)) = true
    · rw [createNodeCore_gate_free t ns m q hvm hf hfal, hviol]
      rfl
    · rcases hjs : jsGet t (nodeTypeKey m) with _ | o
      · rw [hjs] at hfal
        exact absurd rfl hfal
      · have hoe : o ≠ "" := by
          rw [hjs] at hfal
          simpa [jsFalsyOpt] using hfal
        by_cases hoq : o = q.name
        · subst hoq
          rw [createNodeCore_gate_owned t ns m q hvm hf hjs hoe, hviol]
          rfl
        · rw [createNodeCore_gate_conflict t ns m q o hvm hf hjs hoe hoq]
          rfl
  · intro hfal
    rw [createNodeCore_gate_free t ns m q hvm hf (by rw [hkey]; exact hfal), hviol]
    exact ⟨rfl, by simp [hkey]⟩
  · intro hq hqe
    rw [createNodeCore_gate_owned t ns m q hvm hf (by rw [hkey]; exact hq) hqe, hviol]
    exact ⟨rfl, rfl⟩
  · intro o ho hoe hoq
    rw [createNodeCore_gate_conflict t ns m q o hvm hf (by rw [hkey]; exact ho) hoe hoq]
    exact ⟨by rw [hkey], rfl⟩

/-- Witness for C1 (amended) at a concrete store: q re-creating "n1" under
the fresh type T2 fails with the ownership violation. -/
theorem claim_C1_witness :
    (actions.createNode [("T", "p")]
        [("n1", storedNodeP)]
        { id := "n1", internal := some { type := some "T2", contentDigest := some "e" } }
        ⟨"q"⟩).result = .thrown (.ownershipViolation "n1" "p" "q") :=
  ((claim_C1 [("T", "p")]
      [("n1", storedNodeP)]
      { id := "n1", internal := some { type := some "T2", contentDigest := some "e" } }
      ⟨"q"⟩ { type := some "T2", contentDigest := some "e" } "T2" "p" storedNodeP
      rfl rfl (by decide) rfl (by decide) rfl (by decide)
      (by decide)).2.1 (by decide)).1

/-- C4: for a stored node owned by the calling plugin (valid node, no
preset fields, type unclaimed or owned by the caller), createNode with an
identical contentDigest returns the TOUCH_NODE event carrying only the
node id, and with a changed digest returns the full CREATE_NODE event
carrying the whole payload. -/
theorem claim_C4 (t : List (String × String)) (ns : List (String × NodeRec))
    (n : NodeRec) (p : Plugin) (i : Internal) (T : String) (old : NodeRec)
    (hn : n.internal = some i) (ht : i.type = some T)
    (hv : nodeValid n = true) (hf : n.fields = none)
    (hgate : jsFalsyOpt (jsGet t T) = true ∨ (jsGet t T = some p.name ∧ p.name ≠ ""))
    (hold : jsGet ns n.id = some old)
    (hown : (internalOf old).owner = some p.name) :
    ((internalOf old).contentDigest = i.contentDigest →
        (actions.createNode t ns n p).result = .ev (.touchNode p n.id)) ∧
    ((internalOf old).contentDigest ≠ i.contentDigest →
        (actions.createNode t ns n p).result =
          .ev (.createNode p (actions.mutateNode n p))) := by
  have hMut : actions.mutateNode n p =
      { n with internal := some { i with owner := some p.name } } := by
    unfold actions.mutateNode
    rw [hn]
    rfl
  rw [createNode_unfold t ns n p i hn]
  set m : NodeRec := { n with internal := some { i with owner := some p.name } } with hm
  have hkey : nodeTypeKey m = T := by rw [hm, nodeTypeKey_withOwner, ht]; rfl
  have hvm : nodeValid m = true := by rw [hm, nodeValid_withOwner n i _ hn]; exact hv
  have hdigm : (internalOf m).contentDigest = i.contentDigest := rfl
  have hcases : ∀ t2,
      ((internalOf old).contentDigest = i.contentDigest →
        (actions.typeCheckDone t2 ns m p).result = .ev (.touchNode p n.id)) ∧
      ((internalOf old).contentDigest ≠ i.contentDigest →
        (actions.typeCheckDone t2 ns m p).result =
          .ev (.createNode p (actions.mutateNode n p))) := by
    intro t2
    constructor
    · intro hd
      rw [typeCheckDone_touch t2 ns m p old hold hown (by rw [hd, hdigm])]
    · intro hd
      rw [typeCheckDone_create_changed t2 ns m p old hold hown (by rw [hdigm]; exact hd),
        hMut]
  rcases hgate with hfal | ⟨howned, hne⟩
  · rw [createNodeCore_gate_free t ns m p hvm hf (by rw [hkey]; exact hfal)]
    exact hcases _
  · rw [createNodeCore_gate_owned t ns m p hvm hf (by rw [hkey]; exact howned) hne]
    exact hcases _

/-- Witness for C4: plugin p re-creating its stored node "n1" with the
same digest d gets the TOUCH_NODE event; with the changed digest e it
gets the full CREATE_NODE event. -/
theorem claim_C4_witness :
    ((actions.createNode [("T", "p")] [("n1", storedNodeP)]
        { id := "n1", internal := some { type := some "T", contentDigest := some "d" } }
        ⟨"p"⟩).result = .ev (.touchNode ⟨"p"⟩ "n1")) ∧
    ((actions.createNode [("T", "p")] [("n1", storedNodeP)]
        { id := "n1", internal := some { type := some "T", contentDigest := some "e" } }
        ⟨"p"⟩).result = .ev (.createNode ⟨"p"⟩ (actions.mutateNode
        { id := "n1", internal := some { type := some "T", contentDigest := some "e" } }
        ⟨"p"⟩))) :=
  ⟨(claim_C4 [("T", "p")] [("n1", storedNodeP)]
      { id := "n1", internal := some { type := some "T", contentDigest := some "d" } }
      ⟨"p"⟩ { type := some "T", contentDigest := some "d" } "T" storedNodeP
      rfl rfl (by decide) rfl (Or.inr (by decide)) (by decide) rfl).1 (by decide),
   (claim_C4 [("T", "p")] [("n1", storedNodeP)]
      { id := "n1", internal := some { type := some "T", contentDigest := some "e" } }
      ⟨"p"⟩ { type := some "T", contentDigest := some "e" } "T" storedNodeP
      rfl rfl (by decide) rfl (Or.inr (by decide)) (by decide) rfl).2 (by decide)⟩

/-- Counterexample to C5 as stated: a node with fields preset whose rest
is invalid (no internal record, hence no type) makes createNode return
the soft VALIDATION_ERROR result, not the ReservedFieldViolation hard
error, because validation runs before the reserved-field check. -/
theorem claim_C5_counterexample :
    (actions.createNode [] [] { id := "n1", fields := some [("x", "1")] }
        ⟨"p"⟩).result = .validationError := by
  decide

/-- C5 (amended): for every node record with fields preset that passes
structural validation, createNode fails with the thrown
ReservedFieldViolation hard error whatever the registry, the store and
the rest of the record; when the record fails validation, the soft
VALIDATION_ERROR result is returned instead, because validation runs
first. -/
theorem claim_C5 (t : List (String × String)) (ns : List (String × NodeRec))
    (n : NodeRec) (p : Plugin) (i : Internal)
    (hn : n.internal = some i) (hv : nodeValid n = true)
    (hf : n.fields.isSome) :
    ((actions.createNode t ns n p).result = .thrown .reservedFieldViolation) ∧
    (∀ n2 : NodeRec, nodeValid (actions.mutateNode n2 p) = false →
        (actions.createNode t ns n2 p).result = .validationError) := by
  constructor
  · rw [createNode_unfold t ns n p i hn]
    have hvm : nodeValid { n with internal := some { i with owner := some p.name } }
        = true := by rw [nodeValid_withOwner n i _ hn]; exact hv
    unfold actions.createNodeCore
    simp [hvm, hf]
  · intro n2 hbad
    unfold actions.createNode actions.createNodeCore
    simp [hbad]

/-- Witness for C5 (amended): a valid node carrying preset fields is
rejected with the reserved-field hard error. -/
theorem claim_C5_witness :
    (actions.createNode [] []
        { id := "n2", fields := some [("x", "1")],
          internal := some { type := some "T3", contentDigest := some "d" } }
        ⟨"p"⟩).result = .thrown .reservedFieldViolation :=
  (claim_C5 [] []
      { id := "n2", fields := some [("x", "1")],
        internal := some { type := some "T3", contentDigest := some "d" } }
      ⟨"p"⟩ { type := some "T3", contentDigest := some "d" }
      rfl (by decide) rfl).1

/-- The node value createNodeField leaves behind on success: the field
value written under fieldName and the plugin name recorded in
internal.fieldOwners (actions.js lines 311-313). -/
def nodeAfterField (node : NodeRec) (i : Internal) (fieldName fieldValue : String)
    (plugin : Plugin) : NodeRec :=
  { node with
    fields := some (jsSet (node.fields.getD []) fieldName fieldValue),
    internal := some { i with
      fieldOwners := some (jsSet (i.fieldOwners.getD []) fieldName plugin.name) } }

theorem createNodeField_free (node : NodeRec) (f v : String) (p : Plugin)
    (i : Internal) (hn : node.internal = some i)
    (hfree : jsFalsyOpt (jsGet (i.fieldOwners.getD []) f) = true) :
    actions.createNodeField node f v p =
      (.ev (.addFieldToNode p (nodeAfterField node i f v p)),
        nodeAfterField node i f v p) := by
  unfold actions.createNodeField
  rw [hn]
  rcases hfo : i.fieldOwners with _ | fo <;>
    rcases hfl : node.fields with _ | fl <;>
      rw [hfo] at hfree <;>
        simp_all [nodeAfterField, jsGet]

theorem createNodeField_owned (node : NodeRec) (f w o : String) (q : Plugin)
    (i : Internal) (hn : node.internal = some i)
    (ho : jsGet (i.fieldOwners.getD []) f = some o) (hoe : o ≠ "")
    (hoq : o ≠ q.name) :
    (actions.createNodeField node f w q).1 = .thrownFieldOwned node.id q.name f := by
  unfold actions.createNodeField
  rw [hn]
  rcases hfo : i.fieldOwners with _ | fo
  · rw [hfo] at ho
    simp [jsGet] at ho
  · rw [hfo] at ho
    simp only [Option.getD_some] at ho
    rcases hfl : node.fields with _ | fl <;>
      simp [hfo, hfl, ho, jsFalsyOpt, hoe, hoq]

/-- C6: for every node with an internal record and a field name F not yet
claimed on that node, the first plugin p to call createNodeField with F
becomes its owner on that node: the field value is written, p is recorded
in internal.fieldOwners[F], and the ADD_FIELD_TO_NODE event is returned;
a plugin with a different name later calling createNodeField with F on
the resulting node fails with the thrown field-ownership error. -/
theorem claim_C6 (node : NodeRec) (f v w : String) (p q : Plugin) (i : Internal)
    (hn : node.internal = some i)
    (hfree : jsFalsyOpt (jsGet (i.fieldOwners.getD []) f) = true)
    (hp : p.name ≠ "") (hq : q.name ≠ p.name) :
    ((actions.createNodeField node f v p).1 =
        .ev (.addFieldToNode p (actions.createNodeField node f v p).2)) ∧
    (jsGet ((actions.createNodeField node f v p).2.fields.getD []) f = some v) ∧
    (jsGet ((internalOf (actions.createNodeField node f v p).2).fieldOwners.getD []) f
        = some p.name) ∧
    ((actions.createNodeField (actions.createNodeField node f v p).2 f w q).1 =
        .thrownFieldOwned node.id q.name f) := by
  rw [createNodeField_free node f v p i hn hfree]
  refine ⟨rfl, ?_, ?_, ?_⟩
  · show jsGet (jsSet (node.fields.getD []) f v) f = some v
    rw [jsGet_jsSet]
    simp
  · show jsGet (jsSet (i.fieldOwners.getD []) f p.name) f = some p.name
    rw [jsGet_jsSet]
    simp
  · have hafter : (nodeAfterField node i f v p).internal =
        some { i with fieldOwners := some (jsSet (i.fieldOwners.getD []) f p.name) } :=
      rfl
    rw [createNodeField_owned (nodeAfterField node i f v p) f w p.name q _ hafter
      (by rw [Option.getD_some, jsGet_jsSet]; simp) hp (fun hc => hq hc.symm)]
    rfl

/-- Witness for C6: plugin p1 claims the field "happy" on the stored node,
then p2 fails to overwrite it. -/
theorem claim_C6_witness :
    ((actions.createNodeField storedNodeP "happy" "yes" ⟨"p1"⟩).1 =
        .ev (.addFieldToNode ⟨"p1"⟩
          (actions.createNodeField storedNodeP "happy" "yes" ⟨"p1"⟩).2)) ∧
    (jsGet ((actions.createNodeField storedNodeP "happy" "yes" ⟨"p1"⟩).2.fields.getD [])
        "happy" = some "yes") ∧
    (jsGet ((internalOf (actions.createNodeField storedNodeP "happy" "yes"
        ⟨"p1"⟩).2).fieldOwners.getD []) "happy" = some "p1") ∧
    ((actions.createNodeField
        (actions.createNodeField storedNodeP "happy" "yes" ⟨"p1"⟩).2 "happy" "no"
        ⟨"p2"⟩).1 = .thrownFieldOwned "n1" "p2" "happy") :=
  claim_C6 storedNodeP "happy" "yes" "no" ⟨"p1"⟩ ⟨"p2"⟩ _ rfl (by decide)
    (by decide) (by decide)

/-- A concrete stored node whose field "fresh" is already owned by plugin
p1, for the C3 scenario. -/
def storedNodeClaimed : NodeRec :=
  { id := "n1",
    internal := some
      { type := some "T", owner := some "p", contentDigest := some "d",
        fieldOwners := some [("fresh", "p1")] } }

/-- Counterexample to C3 as stated: the stored node "n1" is owned by
plugin p, yet plugin q (a different plugin) succeeds in adding a fresh
field to it through createNodeField, and deleteNode called by q returns
the DELETE_NODE event unconditionally instead of rejecting; neither
operation checks node ownership. -/
theorem claim_C3_counterexample :
    ((internalOf storedNodeP).owner = some "p") ∧
    ((actions.createNodeField storedNodeP "extra" "v" ⟨"q"⟩).1 =
        .ev (.addFieldToNode ⟨"q"⟩
          (actions.createNodeField storedNodeP "extra" "v" ⟨"q"⟩).2)) ∧
    (actions.deleteNode "n1" ⟨"q"⟩ = .deleteNode ⟨"q"⟩ "n1") := by
  decide

/-- C3 (amended): only the createNode update path enforces node
ownership — a plugin with a name different from the stored node's owner
is rejected with the thrown OwnershipViolation.  createNodeField enforces
per-field ownership only: any plugin can add an unclaimed field to any
node, and is rejected only when the field is owned by a differently named
plugin.  deleteNode and deleteNodes perform no ownership check at all and
return their deletion events unconditionally. -/
theorem claim_C3 :
    (∀ t ns n q i T P old, n.internal = some i → i.type = some T →
        nodeValid n = true → n.fields = none →
        jsGet ns n.id = some old → (internalOf old).owner = some P →
        q.name ≠ P → jsGet t T = some q.name → q.name ≠ "" →
        (actions.createNode t ns n q).result =
          .thrown (.ownershipViolation n.id P q.name)) ∧
    (∀ id q, actions.deleteNode id q = .deleteNode q id) ∧
    (∀ l q, actions.deleteNodes l q = .deleteNodes q l) ∧
    (∀ node f v q i, node.internal = some i →
        jsFalsyOpt (jsGet (i.fieldOwners.getD []) f) = true →
        (actions.createNodeField node f v q).1 =
          .ev (.addFieldToNode q (actions.createNodeField node f v q).2)) ∧
    (∀ node f w q i o, node.internal = some i →
        jsGet (i.fieldOwners.getD []) f = some o → o ≠ "" → o ≠ q.name →
        (actions.createNodeField node f w q).1 =
          .thrownFieldOwned node.id q.name f) := by
  refine ⟨?_, fun _ _ => rfl, fun _ _ => rfl, ?_, ?_⟩
  · intro t ns n q i T P old hn ht hv hf hold hpown hqp howned hqe
    rw [createNode_unfold t ns n q i hn]
    set m : NodeRec := { n with internal := some { i with owner := some q.name } } with hm
    have hkey : nodeTypeKey m = T := by rw [hm, nodeTypeKey_withOwner, ht]; rfl
    have hvm : nodeValid m = true := by rw [hm, nodeValid_withOwner n i _ hn]; exact hv
    have hown : (internalOf old).owner ≠ some q.name := by
      rw [hpown]
      intro hc
      exact hqp (Option.some.inj hc).symm
    rw [createNodeCore_gate_owned t ns m q hvm hf (by rw [hkey]; exact howned) hqe,
      typeCheckDone_violation t ns m q old hold hown, hpown, Option.getD_some]
  · intro node f v q i hn hfree
    rw [createNodeField_free node f v q i hn hfree]
  · intro node f w q i o hn ho hoe hoq
    exact createNodeField_owned node f w o q i hn ho hoe hoq

/-- Witness for C3 (amended): the four operation behaviors at concrete
inputs against the stored node "n1" owned by p. -/
theorem claim_C3_witness :
    ((actions.createNode [("T", "q")] [("n1", storedNodeP)]
        { id := "n1", internal := some { type := some "T", contentDigest := some "e" } }
        ⟨"q"⟩).result = .thrown (.ownershipViolation "n1" "p" "q")) ∧
    (actions.deleteNode "nX" ⟨"q"⟩ = .deleteNode ⟨"q"⟩ "nX") ∧
    (actions.deleteNodes ["n1", "n2"] ⟨"q"⟩ = .deleteNodes ⟨"q"⟩ ["n1", "n2"]) ∧
    ((actions.createNodeField storedNodeP "fresh" "v" ⟨"q"⟩).1 =
        .ev (.addFieldToNode ⟨"q"⟩
          (actions.createNodeField storedNodeP "fresh" "v" ⟨"q"⟩).2)) ∧
    ((actions.createNodeField storedNodeClaimed "fresh" "w" ⟨"q"⟩).1 =
        .thrownFieldOwned "n1" "q" "fresh") :=
  ⟨claim_C3.1 [("T", "q")] [("n1", storedNodeP)]
      { id := "n1", internal := some { type := some "T", contentDigest := some "e" } }
      ⟨"q"⟩ { type := some "T", contentDigest := some "e" } "T" "p" storedNodeP
      rfl rfl (by decide) rfl (by decide) rfl (by decide) (by decide) (by decide),
   claim_C3.2.1 "nX" ⟨"q"⟩,
   claim_C3.2.2.1 ["n1", "n2"] ⟨"q"⟩,
   claim_C3.2.2.2.1 storedNodeP "fresh" "v" ⟨"q"⟩ _ rfl (by decide),
   claim_C3.2.2.2.2 storedNodeClaimed "fresh" "w" ⟨"q"⟩ _ "p1" rfl (by decide)
      (by decide) (by decide)⟩

/-- C7: at a structurally invalid record the mutation is a no-op that
emits no mutation event; createNode returns the structured
VALIDATION_ERROR result and the store is unchanged through the
dispatcher, but createPage returns no structured error at all (the
JavaScript function returns undefined), diverging from the claim. -/
theorem claim_C7 :
    ((actions.createNode [] [] { id := "" } ⟨"p"⟩).result = .validationError) ∧
    (dispatchCN [] (actions.createNode [] [] { id := "" } ⟨"p"⟩).result = []) ∧
    ((actions.createPage { path := "/a", component := "" } ⟨"p"⟩).1 = none) := by
  decide
